import Mathlib

/-!
Verification of the authenticated HTTP call dispatcher and response-optimization
pipeline of `packages/@n8n/nodes-langchain/nodes/tools/ToolHttpRequest/utils.ts`.

The TypeScript code is shallowly embedded: JavaScript values are modelled by the
inductive `JSValue`, the mutable `IHttpRequestOptions` record by a Lean structure
that the auth strategies transform functionally, asynchronous collaborator calls
(`ctx.helpers.httpRequest`, `requestOAuth1`, `requestOAuth2`,
`requestWithAuthentication`) by a `DispatchCall` value recording which
collaborator is invoked with which arguments, and thrown errors by
`Except NodeError`.  External library functions (`JSON.parse`, cheerio,
html-to-text, lodash get/set/unset) are modelled at their interface boundary:
`JSON.parse` as an oracle parameter `String → Option JSValue`, the HTML
collaborators as a record of functions, and the lodash path accessors by small
executable models of dot-path traversal.
-/

set_option autoImplicit false

/-- A JavaScript runtime value, as far as the dispatcher and optimizer observe it. -/
inductive JSValue where
  | vundefined
  | vnull
  | vbool (b : Bool)
  | vnum (n : Int)
  | vstr (s : String)
  | varr (items : List JSValue)
  | vobj (fields : List (String × JSValue))

mutual

/-- Structural size of a `JSValue`, used as fuel for `JSON.stringify`. -/
def jsSize : JSValue → Nat
  | .varr xs => 1 + jsSizeList xs
  | .vobj fs => 1 + jsSizeFields fs
  | _ => 1

/-- Structural size of a list of values. -/
def jsSizeList : List JSValue → Nat
  | [] => 0
  | x :: xs => jsSize x + jsSizeList xs

/-- Structural size of an object's field list. -/
def jsSizeFields : List (String × JSValue) → Nat
  | [] => 0
  | (_, v) :: fs => jsSize v + jsSizeFields fs

end

/-- Whether a value is JS `undefined`. -/
def isUndef : JSValue → Bool
  | .vundefined => true
  | _ => false

/-- JavaScript `typeof`. -/
def jsTypeof : JSValue → String
  | .vundefined => "undefined"
  | .vnull => "object"
  | .vbool _ => "boolean"
  | .vnum _ => "number"
  | .vstr _ => "string"
  | .varr _ => "object"
  | .vobj _ => "object"

/-- JavaScript truthiness. -/
def jsTruthy : JSValue → Bool
  | .vundefined => false
  | .vnull => false
  | .vbool b => b
  | .vnum n => n != 0
  | .vstr s => s != ""
  | .varr _ => true
  | .vobj _ => true

/-- JS whitespace characters relevant to trimming and collapsing. -/
def jsIsWs (c : Char) : Bool :=
  c = ' ' || c = '\t' || c = '\n' || c = '\r' || c = '\x0b' || c = '\x0c'

/-- Model of `String.prototype.trim` (also of the redundant
regex `^\s+|\s+$` removal the optimizer performs right after it). -/
def jsTrim (s : String) : String :=
  String.mk (((s.data.dropWhile jsIsWs).reverse.dropWhile jsIsWs).reverse)

/-- Model of `String.prototype.split` with a one-character separator:
`"a,b,".split(",")` is `["a", "b", ""]` and `"".split(",")` is `[""]`. -/
def jsSplitChars (sep : Char) : List Char → List (List Char)
  | [] => [[]]
  | c :: cs =>
    if c = sep then [] :: jsSplitChars sep cs
    else
      match jsSplitChars sep cs with
      | [] => [[c]]
      | part :: parts => (c :: part) :: parts

/-- `s.split(sep)` for a one-character separator. -/
def jsSplit (sep : Char) (s : String) : List String :=
  (jsSplitChars sep s.data).map String.mk

/-- Digit value of a decimal digit character, if it is one. -/
def digitVal (c : Char) : Option Nat :=
  if '0' ≤ c ∧ c ≤ '9' then some (c.toNat - 48) else none

/-- Parse a nonempty all-digit string as a natural number (model of the
numeric-index test JS performs for array property access). -/
def strToNat : List Char → Option Nat → Option Nat
  | [], acc => acc
  | c :: cs, acc =>
    match digitVal c with
    | some d => strToNat cs (some ((acc.getD 0) * 10 + d))
    | none => none

/-- Numeric array index denoted by a string key, if any. -/
def strIndex (s : String) : Option Nat :=
  strToNat s.data none

/-- First-match lookup in a JS object's field list. -/
def lookupKey : List (String × JSValue) → String → Option JSValue
  | [], _ => none
  | (k, v) :: rest, key => if k = key then some v else lookupKey rest key

/-- JS property assignment `obj[key] = value` on an object's field list:
an existing key is overwritten in place, a new key is appended. -/
def setKey : List (String × JSValue) → String → JSValue → List (String × JSValue)
  | [], key, value => [(key, value)]
  | (k, v) :: rest, key, value =>
    if k = key then (key, value) :: rest else (k, v) :: setKey rest key value

/-- JS property access `value[key]` (plain, single-level: no dot-path
interpretation), yielding `undefined` when absent; numeric keys index arrays. -/
def jsGetField (v : JSValue) (key : String) : JSValue :=
  match v with
  | .vobj fs => (lookupKey fs key).getD .vundefined
  | .varr xs =>
    match strIndex key with
    | some n => xs.getD n .vundefined
    | none => .vundefined
  | _ => .vundefined

/-- Entries contributed by spreading a value into an object literal: objects
give their fields, everything else relevant here gives nothing. -/
def spreadEntries : JSValue → List (String × JSValue)
  | .vobj fs => fs
  | _ => []

/-- Shallow merge of an object spread: later entries win on key conflict. -/
def spreadMerge (base : List (String × JSValue)) (v : JSValue) :
    List (String × JSValue) :=
  (spreadEntries v).foldl (fun acc kv => setKey acc kv.1 kv.2) base

/-- JS `String(v)` coercion, scalar cases. -/
def jsToStringShallow : JSValue → String
  | .vundefined => "undefined"
  | .vnull => "null"
  | .vbool b => if b then "true" else "false"
  | .vnum n => toString n
  | .vstr s => s
  | .varr _ => ""
  | .vobj _ => "[object Object]"

/-- JS `String(v)` coercion: arrays join their members with commas
(`undefined`/`null` members become empty), objects print `[object Object]`. -/
def jsToString : JSValue → String
  | .varr xs =>
    String.intercalate ","
      (xs.map fun x =>
        match x with
        | .vundefined => ""
        | .vnull => ""
        | y => jsToStringShallow y)
  | v => jsToStringShallow v

/-- Hex digit for `\u00XX` escapes. -/
def hexDigit (n : Nat) : Char :=
  if n < 10 then Char.ofNat (48 + n) else Char.ofNat (87 + n)

/-- JSON string escaping as performed by `JSON.stringify`. -/
def jsonEscapeChar (c : Char) : List Char :=
  if c = '"' then ['\\', '"']
  else if c = '\\' then ['\\', '\\']
  else if c = '\n' then ['\\', 'n']
  else if c = '\r' then ['\\', 'r']
  else if c = '\t' then ['\\', 't']
  else if c = '\x08' then ['\\', 'b']
  else if c = '\x0c' then ['\\', 'f']
  else if c.toNat < 32 then
    ['\\', 'u', '0', '0', hexDigit (c.toNat / 16), hexDigit (c.toNat % 16)]
  else [c]

/-- A JSON-quoted string literal. -/
def jsonQuote (s : String) : String :=
  "\"" ++ String.mk (s.data.flatMap jsonEscapeChar) ++ "\""

/-- `n` spaces of indentation. -/
def pad (n : Nat) : String :=
  String.mk (List.replicate n ' ')

/-- Fuel-indexed model of `JSON.stringify(v, null, 2)` at indentation `ind`.
`undefined` array members render as `null`; object fields with `undefined`
values are skipped, as `JSON.stringify` does. -/
def stringifyFuel : Nat → Nat → JSValue → String
  | 0, _, _ => ""
  | _ + 1, _, .vundefined => "null"
  | _ + 1, _, .vnull => "null"
  | _ + 1, _, .vbool b => if b then "true" else "false"
  | _ + 1, _, .vnum n => toString n
  | _ + 1, _, .vstr s => jsonQuote s
  | fuel + 1, ind, .varr xs =>
    if xs.isEmpty then "[]"
    else
      "[\n" ++
        String.intercalate ",\n"
          (xs.map fun x => pad (ind + 2) ++ stringifyFuel fuel (ind + 2) x) ++
        "\n" ++ pad ind ++ "]"
  | fuel + 1, ind, .vobj fs =>
    let kept := fs.filter fun kv => !(isUndef kv.2)
    if kept.isEmpty then "\x7b\x7d"
    else
      "\x7b\n" ++
        String.intercalate ",\n"
          (kept.map fun kv =>
            pad (ind + 2) ++ jsonQuote kv.1 ++ ": " ++
              stringifyFuel fuel (ind + 2) kv.2) ++
        "\n" ++ pad ind ++ "\x7d"

/-- Model of `JSON.stringify(v, null, 2)`: `jsSize v` is always enough fuel. -/
def jsonStringify2 (v : JSValue) : String :=
  stringifyFuel (jsSize v) 0 v

/-- Errors thrown by the embedded code.  `applicationError` models the
`ApplicationError` raised by `jsonParse` when given an `errorMessage` option;
`nodeOperationError` models `NodeOperationError(node, message, \x7bitemIndex\x7d)`,
the only error kind that records the item index; `typeError` and `syntaxError`
model the corresponding built-in JS errors. -/
inductive NodeError where
  | applicationError (message : String)
  | nodeOperationError (message : String) (itemIndex : Nat)
  | typeError (message : String)
  | syntaxError (message : String)
  deriving DecidableEq

/-- The human-readable message an error carries. -/
def NodeError.message : NodeError → String
  | .applicationError m => m
  | .nodeOperationError m _ => m
  | .typeError m => m
  | .syntaxError m => m

/-- The item index an error references, if it records one. -/
def NodeError.itemIndexRef : NodeError → Option Nat
  | .nodeOperationError _ i => some i
  | _ => none

/-- Modelled from the spec: n8n-workflow's `jsonParse` (declared in the repo
outside the reviewed sources) parses a JSON string and, if malformed, fails
with a parse error whose message is the supplied `errorMessage` option; with no
option the underlying syntax error propagates.  The underlying `JSON.parse`
builtin is the `parse` oracle. -/
def jsonParse (parse : String → Option JSValue) (s : String)
    (errorMessage : Option String) : Except NodeError JSValue :=
  match parse s with
  | some v => .ok v
  | none =>
    match errorMessage with
    | some m => .error (.applicationError m)
    | none => .error (.syntaxError "Unexpected token in JSON")

/-- The `auth` sub-record a basic/digest strategy writes into the request. -/
structure RequestAuth where
  username : String
  password : String
  sendImmediately : Option Bool
  deriving DecidableEq

/-- The mutable request record (`IHttpRequestOptions`): `headers` and `qs` are
objects or `undefined` (`none`), `body` is an arbitrary value, `auth` is the
credentials sub-record or `undefined`. -/
structure IHttpRequestOptions where
  headers : Option (List (String × JSValue))
  qs : Option (List (String × JSValue))
  body : JSValue
  auth : Option RequestAuth

/-- The static per-credential-type OAuth2 options record. -/
structure IOAuth2Options where
  tokenType : Option String := none
  includeCredentialsOnRefreshOnBody : Option Bool := none
  tokenExpiredStatusCode : Option Int := none
  property : Option String := none
  keepBearer : Option Bool := none
  keyToIncludeInAccessTokenHeader : Option String := none
  deriving DecidableEq

/-- The `\x7b oauth2: ... \x7d` options wrapper passed to
`requestWithAuthentication` when the static table has an entry. -/
structure AuthOptions where
  oauth2 : IOAuth2Options
  deriving DecidableEq

/-- Which collaborator the returned function invokes, with which arguments.
This is the observable behavior of the closures built by
`configureHttpRequestFunction`. -/
inductive DispatchCall where
  | httpRequest (requestOptions : IHttpRequestOptions)
  | requestOAuth1 (credentialType : String) (requestOptions : IHttpRequestOptions)
  | requestOAuth2 (credentialType : String) (requestOptions : IHttpRequestOptions)
      (oAuth2Options : IOAuth2Options)
  | requestWithAuthentication (credentialType : String)
      (requestOptions : IHttpRequestOptions)
      (additionalOptions : Option AuthOptions) (itemIndex : Nat)

/-- Generic first-match lookup in a string-keyed table. -/
def lookupTable {α : Type} : List (String × α) → String → Option α
  | [], _ => none
  | (k, v) :: rest, key => if k = key then some v else lookupTable rest key

/-- The static OAuth2 additional-parameters table
(`getOAuth2AdditionalParameters`), keyed by predefined credential type. -/
def oAuth2OptionsTable : List (String × IOAuth2Options) :=
  [("bitlyOAuth2Api", { tokenType := some "Bearer" }),
   ("boxOAuth2Api", { includeCredentialsOnRefreshOnBody := some true }),
   ("ciscoWebexOAuth2Api", { tokenType := some "Bearer" }),
   ("clickUpOAuth2Api", { keepBearer := some false, tokenType := some "Bearer" }),
   ("goToWebinarOAuth2Api", { tokenExpiredStatusCode := some 403 }),
   ("hubspotDeveloperApi",
     { tokenType := some "Bearer", includeCredentialsOnRefreshOnBody := some true }),
   ("hubspotOAuth2Api",
     { tokenType := some "Bearer", includeCredentialsOnRefreshOnBody := some true }),
   ("lineNotifyOAuth2Api", { tokenType := some "Bearer" }),
   ("linkedInOAuth2Api", { tokenType := some "Bearer" }),
   ("mailchimpOAuth2Api", { tokenType := some "Bearer" }),
   ("mauticOAuth2Api", { includeCredentialsOnRefreshOnBody := some true }),
   ("microsoftDynamicsOAuth2Api", { property := some "id_token" }),
   ("philipsHueOAuth2Api", { tokenType := some "Bearer" }),
   ("raindropOAuth2Api", { includeCredentialsOnRefreshOnBody := some true }),
   ("shopifyOAuth2Api",
     { tokenType := some "Bearer",
       keyToIncludeInAccessTokenHeader := some "X-Shopify-Access-Token" }),
   ("slackOAuth2Api",
     { tokenType := some "Bearer", property := some "authed_user.access_token" }),
   ("stravaOAuth2Api", { includeCredentialsOnRefreshOnBody := some true })]

/-- `getOAuth2AdditionalParameters(nodeCredentialType)`: the table entry for a
credential type, `undefined` (`none`) when absent. -/
def getOAuth2AdditionalParameters (nodeCredentialType : String) :
    Option IOAuth2Options :=
  lookupTable oAuth2OptionsTable nodeCredentialType

/-- The configuration the dispatcher reads from its execution context:
the `genericAuthType` / `nodeCredentialType` node parameters and the fields of
the credential records returned by `ctx.getCredentials`. -/
structure AuthCtx where
  genericAuthType : String
  nodeCredentialType : String
  basicAuthUser : String
  basicAuthPassword : String
  headerAuthName : String
  headerAuthValue : JSValue
  queryAuthName : String
  queryAuthValue : JSValue
  customAuthJson : JSValue

/-- `configureHttpRequestFunction(ctx, auth, itemIndex)`: resolves the
authentication strategy once and returns the dispatch closure.  The returned
function yields the collaborator call it performs, or the error it throws. -/
def configureHttpRequestFunction (parse : String → Option JSValue) (ctx : AuthCtx)
    (auth : String) (itemIndex : Nat) :
    IHttpRequestOptions → Except NodeError DispatchCall :=
  if auth = "genericCredentialType" then
    let genericCredentialType := ctx.genericAuthType
    if genericCredentialType = "httpBasicAuth" ∨ genericCredentialType = "httpDigestAuth" then
      let sendImmediately :=
        if genericCredentialType = "httpDigestAuth" then some false else none
      fun requestOptions =>
        .ok (.httpRequest { requestOptions with
          auth := some { username := ctx.basicAuthUser,
                         password := ctx.basicAuthPassword,
                         sendImmediately := sendImmediately } })
    else if genericCredentialType = "httpHeaderAuth" then
      fun requestOptions =>
        match requestOptions.headers with
        | some hs =>
          .ok (.httpRequest { requestOptions with
            headers := some (setKey hs ctx.headerAuthName ctx.headerAuthValue) })
        | none => .error (.typeError "Cannot set properties of undefined")
    else if genericCredentialType = "httpQueryAuth" then
      fun requestOptions =>
        let qs := requestOptions.qs.getD []
        .ok (.httpRequest { requestOptions with
          qs := some (setKey qs ctx.queryAuthName ctx.queryAuthValue) })
    else if genericCredentialType = "httpCustomAuth" then
      fun requestOptions =>
        let jsonStr :=
          if jsTruthy ctx.customAuthJson then jsToString ctx.customAuthJson
          else "\x7b\x7d"
        match jsonParse parse jsonStr (some "Invalid Custom Auth JSON") with
        | .error e => .error e
        | .ok customAuth =>
          let withHeaders :=
            if jsTruthy (jsGetField customAuth "headers") then
              { requestOptions with
                headers := some (spreadMerge (requestOptions.headers.getD [])
                  (jsGetField customAuth "headers")) }
            else requestOptions
          let withBody :=
            if jsTruthy (jsGetField customAuth "body") then
              { withHeaders with
                body := .vobj (spreadMerge (spreadEntries withHeaders.body)
                  (jsGetField customAuth "body")) }
            else withHeaders
          let withQs :=
            if jsTruthy (jsGetField customAuth "qs") then
              { withBody with
                qs := some (spreadMerge (withBody.qs.getD [])
                  (jsGetField customAuth "qs")) }
            else withBody
          .ok (.httpRequest withQs)
    else if genericCredentialType = "oAuth1Api" then
      fun requestOptions => .ok (.requestOAuth1 "oAuth1Api" requestOptions)
    else if genericCredentialType = "oAuth2Api" then
      fun requestOptions =>
        .ok (.requestOAuth2 "oAuth1Api" requestOptions { tokenType := some "Bearer" })
    else
      fun requestOptions => .ok (.httpRequest requestOptions)
  else if auth = "predefinedCredentialType" then
    let nodeCredentialType := ctx.nodeCredentialType
    let additionalOAuth2Options := getOAuth2AdditionalParameters nodeCredentialType
    fun requestOptions =>
      .ok (.requestWithAuthentication nodeCredentialType requestOptions
        (additionalOAuth2Options.map fun o => { oauth2 := o }) itemIndex)
  else
    fun requestOptions => .ok (.httpRequest requestOptions)

/-- Whether a value is a JS object in lodash's sense (arrays included, `null`
excluded). -/
def isObjectish : JSValue → Bool
  | .varr _ => true
  | .vobj _ => true
  | _ => false

/-- Set an array element at an index, padding with `undefined` holes (model of
lodash writing past the end of an array). -/
def listSetPad : List JSValue → Nat → JSValue → List JSValue
  | [], 0, nv => [nv]
  | [], n + 1, nv => .vundefined :: listSetPad [] n nv
  | _ :: xs, 0, nv => nv :: xs
  | x :: xs, n + 1, nv => x :: listSetPad xs n nv

/-- Single-segment property write: objects get the key set, arrays a numeric
index; writes on scalars are dropped, as lodash `set` leaves non-objects alone. -/
def setField : JSValue → String → JSValue → JSValue
  | .vobj fs, k, nv => .vobj (setKey fs k nv)
  | .varr xs, k, nv =>
    match strIndex k with
    | some n => .varr (listSetPad xs n nv)
    | none => .varr xs
  | v, _, _ => v

/-- Remove the first occurrence of a key from an object's field list. -/
def removeKey : List (String × JSValue) → String → List (String × JSValue)
  | [], _ => []
  | (k, v) :: rest, key => if k = key then rest else (k, v) :: removeKey rest key

/-- Single-segment property delete: objects lose the key, array indices become
`undefined` holes; scalars are left alone. -/
def unsetField : JSValue → String → JSValue
  | .vobj fs, k => .vobj (removeKey fs k)
  | .varr xs, k =>
    match strIndex k with
    | some n => .varr (xs.set n .vundefined)
    | none => .varr xs
  | v, _ => v

/-- Model of lodash `get(obj, path)` along an already-split dotted path:
missing intermediate segments yield `undefined`. -/
def lodashGetPath : JSValue → List String → JSValue
  | v, [] => v
  | v, k :: ks => lodashGetPath (jsGetField v k) ks

/-- Model of lodash `set(obj, path, value)` along an already-split dotted path:
missing intermediate containers are created (arrays when the next segment is a
numeric index, objects otherwise). -/
def lodashSetPath : JSValue → List String → JSValue → JSValue
  | v, [], _ => v
  | v, [k], nv => setField v k nv
  | v, k :: k2 :: ks, nv =>
    let child := jsGetField v k
    let child2 :=
      if isObjectish child then child
      else if (strIndex k2).isSome then .varr [] else .vobj []
    setField v k (lodashSetPath child2 (k2 :: ks) nv)

/-- Model of lodash `unset(obj, path)` along an already-split dotted path:
a missing intermediate segment makes the delete a no-op. -/
def lodashUnsetPath : JSValue → List String → JSValue
  | v, [] => v
  | v, [k] => unsetField v k
  | v, k :: k2 :: ks =>
    let child := jsGetField v k
    if isObjectish child then setField v k (lodashUnsetPath child (k2 :: ks)) else v

/-- lodash `get` with a dotted-path string. -/
def lodashGet (v : JSValue) (path : String) : JSValue :=
  lodashGetPath v (jsSplit '.' path)

/-- lodash `set` with a dotted-path string. -/
def lodashSet (v : JSValue) (path : String) (nv : JSValue) : JSValue :=
  lodashSetPath v (jsSplit '.' path) nv

/-- lodash `unset` with a dotted-path string. -/
def lodashUnset (v : JSValue) (path : String) : JSValue :=
  lodashUnsetPath v (jsSplit '.' path)

/-- One entry of the `selectors` option handed to html-to-text's `convert`. -/
structure HtmlToTextSelector where
  selector : String
  format : String
  deriving DecidableEq

/-- The HTML collaborators at their interface boundary: `select html css` is
cheerio's load-and-select returning each matched element's inner HTML in
document order (`html(el).html() || ''`), and `convert` is html-to-text's
flattener with its optional `selectors` option. -/
structure HtmlCollab where
  select : String → String → List String
  convert : String → Option (List HtmlToTextSelector) → String

/-- Collapse runs of whitespace to a single space (the `\s+` → one-space
replacement); the flag records whether a run is in progress. -/
def collapseWsChars : Bool → List Char → List Char
  | _, [] => []
  | inRun, c :: cs =>
    if jsIsWs c then
      if inRun then collapseWsChars true cs else ' ' :: collapseWsChars true cs
    else c :: collapseWsChars false cs

/-- The optimizer's whitespace normalization chain: `.trim()`, the redundant
`^\s+|\s+$` removal, deletion of CR/LF, and collapsing whitespace runs to one
space. -/
def htmlNormalize (s : String) : String :=
  let t := jsTrim (jsTrim s)
  let t2 := t.data.filter fun c => !(c = '\n' || c = '\r')
  String.mk (collapseWsChars false t2)

/-- The configuration the optimizer reads from its execution context via
`getNodeParameter` (with the source's defaults already applied). -/
structure OptimizerCtx where
  optimizeResponse : Bool
  responseType : String
  cssSelector : String
  onlyContent : Bool
  elementsToOmitUi : JSValue
  maxLength : Int
  dataField : String
  fieldsToInclude : String
  fields : JSValue

/-- The `fields` parameter cast `string[] | string`: a comma-separated string
is split and trimmed, an array is used as-is. -/
def fieldsAsList : JSValue → List String
  | .vstr s => (jsSplit ',' s).map jsTrim
  | .varr xs => xs.map jsToString
  | _ => []

/-- The `json` branch of the optimizer (source lines 264-341): parse a string
response, require an object or array, unwrap `dataField` by plain property
access, project fields, and pretty-print. -/
def jsonOptimize (parse : String → Option JSValue) (ctx : OptimizerCtx)
    (itemIndex : Nat) (response : JSValue) : Except NodeError String :=
  let parsed : Except NodeError JSValue :=
    match response with
    | .vstr s => jsonParse parse s none
    | v => .ok v
  match parsed with
  | .error e => .error e
  | .ok responseData =>
    if jsTypeof responseData ≠ "object" ∨ jsTruthy responseData = false then
      .error (.nodeOperationError
        "The response type must be an object or an array of objects" itemIndex)
    else
      let dataField := ctx.dataField
      let working : List JSValue :=
        match responseData with
        | .varr xs =>
          if dataField ≠ "" then xs.map (fun d => jsGetField d dataField) else xs
        | v =>
          if dataField ≠ "" then
            match jsGetField v dataField with
            | .varr ys => ys
            | d => [d]
          else [v]
      let fieldsToInclude := ctx.fieldsToInclude
      let fields : List String :=
        if fieldsToInclude ≠ "all" then fieldsAsList ctx.fields else []
      let returnData : List JSValue :=
        if fieldsToInclude = "all" then working
        else if fieldsToInclude = "selected" then
          working.map fun item =>
            fields.foldl (fun ni field => lodashSet ni field (lodashGet item field))
              (.vobj [])
        else if fieldsToInclude = "except" then
          working.map fun item => fields.foldl (fun it field => lodashUnset it field) item
        else []
      .ok (jsonStringify2 (.varr returnData))

/-- The fallback serializer (source lines 344-353): a string is returned
unchanged, other objects are pretty-printed as JSON with 2-space indent,
anything else is coerced with `String(...)`. -/
def fallbackSerialize (response : JSValue) : String :=
  if jsTypeof response = "string" then jsToString response
  else if jsTypeof response = "object" then jsonStringify2 response
  else jsToString response

/-- `configureResponseOptimizer(ctx, itemIndex)`: builds the optimizer closure
for the configured response type, or the fallback serializer when optimization
is disabled (or an unknown response type slips through). -/
def configureResponseOptimizer (collab : HtmlCollab)
    (parse : String → Option JSValue) (ctx : OptimizerCtx) (itemIndex : Nat) :
    JSValue → Except NodeError String :=
  if ctx.optimizeResponse then
    if ctx.responseType = "html" then
      let cssSelector := ctx.cssSelector
      let onlyContent := ctx.onlyContent
      let elementsToOmit : List String :=
        if onlyContent then
          match ctx.elementsToOmitUi with
          | .vstr s => (jsSplit ',' s).map jsTrim
          | _ => []
        else []
      fun response =>
        match response with
        | .vstr s =>
          let htmlElements := collab.select s cssSelector
          let returnData := htmlElements.map fun el =>
            let value :=
              if onlyContent then
                let htmlToTextOptions :=
                  if elementsToOmit.length != 0 then
                    some (elementsToOmit.map fun selector =>
                      { selector := selector, format := "skip" : HtmlToTextSelector })
                  else none
                collab.convert el htmlToTextOptions
              else el
            htmlNormalize value
          .ok (jsonStringify2 (.varr (returnData.map JSValue.vstr)))
        | v =>
          .error (.nodeOperationError
            ("The response type must be a string. Received: " ++ jsTypeof v) itemIndex)
    else if ctx.responseType = "text" then
      let maxLength := ctx.maxLength
      fun response =>
        match response with
        | .vstr s =>
          if maxLength > 0 ∧ (s.length : Int) > maxLength then
            .ok (s.take maxLength.toNat)
          else .ok s
        | v =>
          .error (.nodeOperationError
            ("The response type must be a string. Received: " ++ jsTypeof v) itemIndex)
    else if ctx.responseType = "json" then
      fun response => jsonOptimize parse ctx itemIndex response
    else
      fun response => .ok (fallbackSerialize response)
  else
    fun response => .ok (fallbackSerialize response)

/-- A parse oracle that accepts nothing (used where parsing is irrelevant or
must fail). -/
def parseNone : String → Option JSValue := fun _ => none

/-- A parse oracle that parses the empty object literal and nothing else. -/
def parseEmptyObj : String → Option JSValue :=
  fun s => if s = "\x7b\x7d" then some (.vobj []) else none

/-- A trivial HTML collaborator: no element matches, `convert` is identity. -/
def collabTriv : HtmlCollab :=
  { select := fun _ _ => [], convert := fun s _ => s }

/-- A sample dispatcher context with the given generic credential kind. -/
def ctxGeneric (g : String) : AuthCtx :=
  { genericAuthType := g, nodeCredentialType := "", basicAuthUser := "user",
    basicAuthPassword := "pw", headerAuthName := "X-Key",
    headerAuthValue := .vstr "v1", queryAuthName := "token",
    queryAuthValue := .vstr "t", customAuthJson := .vundefined }

/-- A sample dispatcher context for `httpCustomAuth` with the given `json`
credential field. -/
def ctxCustomJson (j : JSValue) : AuthCtx :=
  { ctxGeneric "httpCustomAuth" with customAuthJson := j }

/-- An empty request record. -/
def ro0 : IHttpRequestOptions :=
  { headers := none, qs := none, body := .vundefined, auth := none }

/-- A request record with one pre-existing header. -/
def roHdr : IHttpRequestOptions :=
  { headers := some [("Accept", .vstr "text/html")], qs := none,
    body := .vundefined, auth := none }

/-- A sample optimizer context: json response type, no dataField, keep all. -/
def ctxOptBase : OptimizerCtx :=
  { optimizeResponse := true, responseType := "json", cssSelector := "",
    onlyContent := false, elementsToOmitUi := .vundefined, maxLength := 0,
    dataField := "", fieldsToInclude := "all", fields := .vundefined }

/-- The nested object used to separate plain-key from dotted-path access:
its dotted path `a.b` reaches an array, its top-level keys are just `a`. -/
def respNested : JSValue :=
  .vobj [("a", .vobj [("b", .varr [.vobj [("x", .vnum 1)]])])]

theorem lookupKey_setKey_self (l : List (String × JSValue)) (k : String)
    (v : JSValue) : lookupKey (setKey l k v) k = some v := by
  induction l with
  | nil => simp [setKey, lookupKey]
  | cons p rest ih =>
    obtain ⟨a, b⟩ := p
    by_cases h : a = k
    · simp [setKey, h, lookupKey]
    · simp [setKey, h, lookupKey, ih]

theorem lookupKey_setKey_other (l : List (String × JSValue)) (k k2 : String)
    (v : JSValue) (h : k2 ≠ k) :
    lookupKey (setKey l k v) k2 = lookupKey l k2 := by
  induction l with
  | nil =>
    have hk : ¬k = k2 := fun h2 => h h2.symm
    simp [setKey, lookupKey, hk]
  | cons p rest ih =>
    obtain ⟨a, b⟩ := p
    by_cases ha : a = k
    · subst ha
      have hk : ¬a = k2 := fun h2 => h h2.symm
      simp [setKey, lookupKey, hk]
    · simp only [setKey, if_neg ha, lookupKey]
      by_cases h2 : a = k2
      · simp [h2]
      · simp [h2, ih]

/-- C3: for `authMode = none`, and likewise for every `genericCredentialType`
value outside the seven recognized kinds, the resolver returns a function that
performs the plain transport call (`ctx.helpers.httpRequest`) with the request
unmodified — in particular `requestSpec.auth` is never set — rather than
failing. -/
theorem authNone_plainDispatch (parse : String → Option JSValue) (ctx : AuthCtx)
    (auth : String) (itemIndex : Nat)
    (h : auth = "none" ∨ (auth = "genericCredentialType" ∧
      ctx.genericAuthType ≠ "httpBasicAuth" ∧ ctx.genericAuthType ≠ "httpDigestAuth" ∧
      ctx.genericAuthType ≠ "httpHeaderAuth" ∧ ctx.genericAuthType ≠ "httpQueryAuth" ∧
      ctx.genericAuthType ≠ "httpCustomAuth" ∧ ctx.genericAuthType ≠ "oAuth1Api" ∧
      ctx.genericAuthType ≠ "oAuth2Api")) :
    ∀ requestOptions,
      configureHttpRequestFunction parse ctx auth itemIndex requestOptions =
        .ok (.httpRequest requestOptions) := by
  intro ro
  rcases h with h | ⟨h, h1, h2, h3, h4, h5, h6, h7⟩
  · subst h
    simp [configureHttpRequestFunction]
  · subst h
    simp [configureHttpRequestFunction, h1, h2, h3, h4, h5, h6, h7]

/-- C3 witness: a concrete unrecognized generic kind dispatches plainly. -/
theorem authNone_plainDispatch_witness :
    configureHttpRequestFunction parseNone (ctxGeneric "sshPrivateKey")
      "genericCredentialType" 0 roHdr = .ok (.httpRequest roHdr) :=
  authNone_plainDispatch parseNone (ctxGeneric "sshPrivateKey")
    "genericCredentialType" 0
    (Or.inr ⟨rfl, by decide, by decide, by decide, by decide, by decide,
      by decide, by decide⟩) roHdr

/-- C4: for the `httpHeaderAuth` strategy, for every credential
`\x7bname, value\x7d` and every request whose `headers` field is already an
object, the returned function sets `headers[name] = value` and leaves every
other header entry, as well as `qs`, `body` and `auth`, unchanged. -/
theorem headerAuth_addsOwnHeaderOnly (parse : String → Option JSValue)
    (ctx : AuthCtx) (itemIndex : Nat) (ro : IHttpRequestOptions)
    (hs : List (String × JSValue))
    (hg : ctx.genericAuthType = "httpHeaderAuth") (hh : ro.headers = some hs) :
    configureHttpRequestFunction parse ctx "genericCredentialType" itemIndex ro =
      .ok (.httpRequest
        { headers := some (setKey hs ctx.headerAuthName ctx.headerAuthValue),
          qs := ro.qs, body := ro.body, auth := ro.auth }) ∧
    lookupKey (setKey hs ctx.headerAuthName ctx.headerAuthValue)
      ctx.headerAuthName = some ctx.headerAuthValue ∧
    ∀ k, k ≠ ctx.headerAuthName →
      lookupKey (setKey hs ctx.headerAuthName ctx.headerAuthValue) k =
        lookupKey hs k := by
  refine ⟨?_, ?_, ?_⟩
  · simp [configureHttpRequestFunction, hg, hh]
  · exact lookupKey_setKey_self hs ctx.headerAuthName ctx.headerAuthValue
  · exact fun k hk =>
      lookupKey_setKey_other hs ctx.headerAuthName k ctx.headerAuthValue hk

/-- C4 witness: concrete header injection sets `X-Key` and preserves the
pre-existing `Accept` header as well as `qs`, `body` and `auth`. -/
theorem headerAuth_addsOwnHeaderOnly_witness :
    configureHttpRequestFunction parseNone (ctxGeneric "httpHeaderAuth")
      "genericCredentialType" 0 roHdr =
      .ok (.httpRequest
        { headers := some [("Accept", .vstr "text/html"), ("X-Key", .vstr "v1")],
          qs := none, body := .vundefined, auth := none }) ∧
    lookupKey [("Accept", JSValue.vstr "text/html"), ("X-Key", JSValue.vstr "v1")]
      "X-Key" = some (.vstr "v1") ∧
    lookupKey [("Accept", JSValue.vstr "text/html"), ("X-Key", JSValue.vstr "v1")]
      "Accept" = lookupKey [("Accept", JSValue.vstr "text/html")] "Accept" := by
  have h := headerAuth_addsOwnHeaderOnly parseNone (ctxGeneric "httpHeaderAuth")
    0 roHdr [("Accept", .vstr "text/html")] rfl rfl
  exact ⟨h.1, h.2.1, h.2.2 "Accept" (by decide)⟩

/-- C7: for `authMode = predefinedCredentialType` with any credential-type
identifier, the returned function calls `requestWithAuthentication` with that
identifier and the request, passing an `\x7boauth2: entry\x7d` options wrapper
exactly when the identifier has an entry in the static OAuth2
additional-parameters table, and no oauth2 override otherwise. -/
theorem predefinedAuth_oauth2Wrapper (parse : String → Option JSValue)
    (ctx : AuthCtx) (itemIndex : Nat) (ro : IHttpRequestOptions) :
    configureHttpRequestFunction parse ctx "predefinedCredentialType" itemIndex ro =
      .ok (.requestWithAuthentication ctx.nodeCredentialType ro
        ((getOAuth2AdditionalParameters ctx.nodeCredentialType).map
          fun o => { oauth2 := o }) itemIndex) := by
  simp [configureHttpRequestFunction]

/-- C9: for `genericCredentialType = oAuth2Api`, the returned function always
invokes the OAuth2 signing collaborator with the credential-type identifier
string `oAuth1Api` — not `oAuth2Api` — together with the fixed option
`\x7btokenType: 'Bearer'\x7d`. -/
theorem oauth2Generic_usesOAuth1Identifier (parse : String → Option JSValue)
    (ctx : AuthCtx) (itemIndex : Nat) (ro : IHttpRequestOptions)
    (hg : ctx.genericAuthType = "oAuth2Api") :
    configureHttpRequestFunction parse ctx "genericCredentialType" itemIndex ro =
      .ok (.requestOAuth2 "oAuth1Api" ro { tokenType := some "Bearer" }) := by
  simp [configureHttpRequestFunction, hg]

/-- C9 witness: concrete oAuth2Api configuration signs with `oAuth1Api`. -/
theorem oauth2Generic_usesOAuth1Identifier_witness :
    configureHttpRequestFunction parseNone (ctxGeneric "oAuth2Api")
      "genericCredentialType" 0 ro0 =
      .ok (.requestOAuth2 "oAuth1Api" ro0 { tokenType := some "Bearer" }) :=
  oauth2Generic_usesOAuth1Identifier parseNone (ctxGeneric "oAuth2Api") 0 ro0 rfl

/-- C10: for the `httpCustomAuth` strategy, when the credential's `json` field
is absent (`undefined`), `null`, or the empty string, the literal `\x7b\x7d` is
parsed in its place, so the returned function succeeds and dispatches the
request with `headers`, `qs` and `body` unchanged. -/
theorem customAuth_emptyJson_unchanged (parse : String → Option JSValue)
    (ctx : AuthCtx) (itemIndex : Nat) (ro : IHttpRequestOptions)
    (hg : ctx.genericAuthType = "httpCustomAuth")
    (hjson : ctx.customAuthJson = .vundefined ∨ ctx.customAuthJson = .vnull ∨
      ctx.customAuthJson = .vstr "")
    (hparse : parse "\x7b\x7d" = some (.vobj [])) :
    configureHttpRequestFunction parse ctx "genericCredentialType" itemIndex ro =
      .ok (.httpRequest ro) := by
  have hfalsy : jsTruthy ctx.customAuthJson = false := by
    rcases hjson with h | h | h <;> simp [h, jsTruthy]
  simp only [configureHttpRequestFunction, hg, hfalsy]
  simp [jsonParse, hparse, jsGetField, lookupKey, jsTruthy]

/-- C10 witness: a null `json` credential field leaves the request unchanged. -/
theorem customAuth_emptyJson_unchanged_witness :
    configureHttpRequestFunction parseEmptyObj (ctxCustomJson .vnull)
      "genericCredentialType" 0 roHdr = .ok (.httpRequest roHdr) :=
  customAuth_emptyJson_unchanged parseEmptyObj (ctxCustomJson .vnull) 0 roHdr
    rfl (Or.inr (Or.inl rfl)) rfl

/-- C2 (amended): for the `httpCustomAuth` strategy, every malformed JSON
credential string makes the returned function raise a parse error whose
message is "Invalid Custom Auth JSON"; the error does not reference the
offending item index. -/
theorem customAuth_malformed_parseError (parse : String → Option JSValue)
    (ctx : AuthCtx) (itemIndex : Nat) (ro : IHttpRequestOptions) (s : String)
    (hg : ctx.genericAuthType = "httpCustomAuth")
    (hjson : ctx.customAuthJson = .vstr s) (hne : s ≠ "")
    (hbad : parse s = none) :
    configureHttpRequestFunction parse ctx "genericCredentialType" itemIndex ro =
      .error (.applicationError "Invalid Custom Auth JSON") ∧
    NodeError.itemIndexRef (.applicationError "Invalid Custom Auth JSON") = none := by
  have htruthy : jsTruthy ctx.customAuthJson = true := by
    simp [hjson, jsTruthy, hne]
  have hstr : jsToString ctx.customAuthJson = s := by
    simp [hjson, jsToString, jsToStringShallow]
  constructor
  · simp only [configureHttpRequestFunction, hg, htruthy, hstr]
    simp [jsonParse, hbad]
  · rfl

/-- C2 witness: a concrete malformed credential string raises the parse error. -/
theorem customAuth_malformed_parseError_witness :
    configureHttpRequestFunction parseNone (ctxCustomJson (.vstr "\x7binvalid"))
      "genericCredentialType" 7 ro0 =
      .error (.applicationError "Invalid Custom Auth JSON") ∧
    NodeError.itemIndexRef (.applicationError "Invalid Custom Auth JSON") = none :=
  customAuth_malformed_parseError parseNone (ctxCustomJson (.vstr "\x7binvalid")) 7
    ro0 "\x7binvalid" rfl rfl (by decide) rfl

/-- C2 counterexample: at item index 7 with a concrete malformed credential
string, the raised error records no item index at all — in particular not the
offending index 7 — refuting the claim that the parse error carries
(references) the offending item index. -/
theorem customAuth_parseError_noItemIndex :
    configureHttpRequestFunction parseNone (ctxCustomJson (.vstr "not json"))
      "genericCredentialType" 7 ro0 =
      .error (.applicationError "Invalid Custom Auth JSON") ∧
    NodeError.itemIndexRef (.applicationError "Invalid Custom Auth JSON") = none ∧
    NodeError.itemIndexRef (.applicationError "Invalid Custom Auth JSON") ≠ some 7 :=
  ⟨rfl, rfl, by decide⟩

/-- C1 (amended): for the json optimizer, when `dataField` is set it is
interpreted as a plain top-level property key (not a dotted path): if the
parsed value is not an array, the value at that key is extracted and, if it is
an array, becomes the working array, otherwise it is wrapped in a one-element
array; if the parsed value is already an array, each element is mapped
one-to-one (not filtered) to the value at that key. -/
theorem jsonOptimizer_dataField_plainKey (collab : HtmlCollab)
    (parse : String → Option JSValue) (ctx : OptimizerCtx) (itemIndex : Nat)
    (h1 : ctx.optimizeResponse = true) (h2 : ctx.responseType = "json")
    (h3 : ctx.dataField ≠ "") (h4 : ctx.fieldsToInclude = "all") :
    (∀ fs, configureResponseOptimizer collab parse ctx itemIndex (.vobj fs) =
      .ok (jsonStringify2 (.varr
        (match jsGetField (.vobj fs) ctx.dataField with
         | .varr ys => ys
         | d => [d])))) ∧
    (∀ xs, configureResponseOptimizer collab parse ctx itemIndex (.varr xs) =
      .ok (jsonStringify2 (.varr (xs.map fun d => jsGetField d ctx.dataField)))) := by
  constructor
  · intro fs
    simp [configureResponseOptimizer, h1, h2, h3, h4, jsonOptimize, jsTypeof,
      jsTruthy]
  · intro xs
    simp [configureResponseOptimizer, h1, h2, h3, h4, jsonOptimize, jsTypeof,
      jsTruthy]

/-- C1 witness: a top-level key holding an array becomes the working array. -/
theorem jsonOptimizer_dataField_plainKey_witness :
    configureResponseOptimizer collabTriv parseNone
      { ctxOptBase with dataField := "d" } 0
      (.vobj [("d", .varr [.vnum 1, .vnum 2])]) =
    .ok (jsonStringify2 (.varr [.vnum 1, .vnum 2])) :=
  (jsonOptimizer_dataField_plainKey collabTriv parseNone
    { ctxOptBase with dataField := "d" } 0 rfl rfl (by decide) rfl).1
    [("d", .varr [.vnum 1, .vnum 2])]

/-- C1 counterexample: with `dataField = "a.b"` on an object whose dotted path
`a.b` reaches a nested array, the optimizer does not traverse the dotted path
(the lodash-style dotted read would find the array) but looks up the literal
key `"a.b"`, finds `undefined`, wraps it, and prints `[null]` — not the
pretty-printed nested array the claim requires. -/
theorem jsonOptimizer_dataField_notDotted :
    configureResponseOptimizer collabTriv parseNone
      { ctxOptBase with dataField := "a.b" } 0 respNested =
      .ok "[\n  null\n]" ∧
    lodashGet respNested "a.b" = .varr [.vobj [("x", .vnum 1)]] ∧
    ("[\n  null\n]" : String) ≠ jsonStringify2 (.varr [.vobj [("x", .vnum 1)]]) :=
  ⟨rfl, rfl, by decide⟩

/-- C5 (amended): for every non-string raw response, both the html optimizer
and the text optimizer fail with a `NodeOperationError` carrying the item
index, whose message is "The response type must be a string. Received: "
followed by the JS type of the response — not with
`TypeError("response must be a string")`. -/
theorem stringRequired_nodeOperationError (collab : HtmlCollab)
    (parse : String → Option JSValue) (ctx : OptimizerCtx) (itemIndex : Nat)
    (h1 : ctx.optimizeResponse = true)
    (h2 : ctx.responseType = "html" ∨ ctx.responseType = "text") :
    ∀ v, jsTypeof v ≠ "string" →
      configureResponseOptimizer collab parse ctx itemIndex v =
        .error (.nodeOperationError
          ("The response type must be a string. Received: " ++ jsTypeof v)
          itemIndex) := by
  intro v hv
  rcases h2 with h2 | h2 <;> cases v <;>
    simp_all [configureResponseOptimizer, jsTypeof]

/-- C5 witness: the html optimizer rejects a concrete numeric response. -/
theorem stringRequired_nodeOperationError_witness :
    configureResponseOptimizer collabTriv parseNone
      { ctxOptBase with responseType := "html" } 0 (.vnum 5) =
      .error (.nodeOperationError
        "The response type must be a string. Received: number" 0) :=
  stringRequired_nodeOperationError collabTriv parseNone
    { ctxOptBase with responseType := "html" } 0 rfl (Or.inl rfl) (.vnum 5)
    (by decide)

/-- C5 counterexample: on concrete non-string inputs both optimizers raise a
`NodeOperationError` with the "The response type must be a string" message,
which is not the claimed `TypeError("response must be a string")`. -/
theorem stringRequired_not_typeError :
    configureResponseOptimizer collabTriv parseNone
      { ctxOptBase with responseType := "html" } 1 (.vbool true) =
      .error (.nodeOperationError
        "The response type must be a string. Received: boolean" 1) ∧
    configureResponseOptimizer collabTriv parseNone
      { ctxOptBase with responseType := "text" } 1 (.vbool true) =
      .error (.nodeOperationError
        "The response type must be a string. Received: boolean" 1) ∧
    NodeError.nodeOperationError
      "The response type must be a string. Received: boolean" 1 ≠
      NodeError.typeError "response must be a string" :=
  ⟨rfl, rfl, by decide⟩

/-- C6: for every string response and configured `maxLength`, the text
optimizer returns the first `maxLength` characters when `maxLength > 0` and
the length exceeds it, and returns the response unchanged otherwise (no
truncation marker); `maxLength = 0` means unbounded. -/
theorem textOptimizer_truncates (collab : HtmlCollab)
    (parse : String → Option JSValue) (ctx : OptimizerCtx) (itemIndex : Nat)
    (h1 : ctx.optimizeResponse = true) (h2 : ctx.responseType = "text") :
    ∀ s : String,
      (ctx.maxLength > 0 → (s.length : Int) > ctx.maxLength →
        configureResponseOptimizer collab parse ctx itemIndex (.vstr s) =
          .ok (s.take ctx.maxLength.toNat)) ∧
      (¬(ctx.maxLength > 0 ∧ (s.length : Int) > ctx.maxLength) →
        configureResponseOptimizer collab parse ctx itemIndex (.vstr s) =
          .ok s) := by
  intro s
  constructor
  · intro hm hl
    simp [configureResponseOptimizer, h1, h2, hm, hl]
  · intro hn
    simp [configureResponseOptimizer, h1, h2, hn]

/-- C6 witness: `maxLength = 5` on `"abcdefgh"` yields `"abcde"`, and
`maxLength = 0` leaves the input unchanged. -/
theorem textOptimizer_truncates_witness :
    configureResponseOptimizer collabTriv parseNone
      { ctxOptBase with responseType := "text", maxLength := 5 } 0
      (.vstr "abcdefgh") = .ok "abcde" ∧
    configureResponseOptimizer collabTriv parseNone
      { ctxOptBase with responseType := "text" } 0
      (.vstr "abcdefgh") = .ok "abcdefgh" :=
  ⟨(textOptimizer_truncates collabTriv parseNone
      { ctxOptBase with responseType := "text", maxLength := 5 } 0 rfl rfl
      "abcdefgh").1 (by decide) (by decide),
   (textOptimizer_truncates collabTriv parseNone
      { ctxOptBase with responseType := "text" } 0 rfl rfl
      "abcdefgh").2 (by decide)⟩

/-- C8: for every response value that is already a string, applying the
fallback serializer (the function built when optimization is disabled) twice
yields the same string as applying it once. -/
theorem fallbackSerializer_idempotent (collab : HtmlCollab)
    (parse : String → Option JSValue) (ctx : OptimizerCtx) (itemIndex : Nat)
    (h : ctx.optimizeResponse = false) (s : String) :
    (configureResponseOptimizer collab parse ctx itemIndex (.vstr s)).bind
      (fun r => configureResponseOptimizer collab parse ctx itemIndex (.vstr r)) =
    configureResponseOptimizer collab parse ctx itemIndex (.vstr s) := by
  simp [configureResponseOptimizer, h, fallbackSerialize, jsTypeof, jsToString,
    jsToStringShallow, Except.bind]

/-- C8 witness: the disabled-optimization serializer is idempotent on a
concrete string. -/
theorem fallbackSerializer_idempotent_witness :
    (configureResponseOptimizer collabTriv parseNone
        { ctxOptBase with optimizeResponse := false } 0 (.vstr "hello")).bind
      (fun r => configureResponseOptimizer collabTriv parseNone
        { ctxOptBase with optimizeResponse := false } 0 (.vstr r)) =
    configureResponseOptimizer collabTriv parseNone
      { ctxOptBase with optimizeResponse := false } 0 (.vstr "hello") :=
  fallbackSerializer_idempotent collabTriv parseNone
    { ctxOptBase with optimizeResponse := false } 0 rfl "hello"
